import Mathlib

/-!
Verification of `chrome/browser/extensions/extension_view_host.cc`.

The file embeds the observable behaviour of `ExtensionViewHost` as pure
Lean functions: keyboard dispatch, the navigation-disposition allow-list,
the weak associated-web-contents reference with its destruction observer,
visible-contents resolution, infobar CSS injection, and the
`IsBackgroundPage` predicate.
-/

namespace ExtensionViewHostModel

/-- Host kinds an `ExtensionViewHost` may be constructed with
(`VIEW_TYPE_EXTENSION_DIALOG`, `VIEW_TYPE_EXTENSION_INFOBAR`,
`VIEW_TYPE_EXTENSION_POPUP`); the constructor `DCHECK`s the type is one of
these three. -/
inductive ViewType where
  | dialog
  | infobar
  | popup
  deriving DecidableEq, Repr

/-- Navigation dispositions (`WindowOpenDisposition` in the source tree). -/
inductive WindowOpenDisposition where
  | unknown
  | suppressOpen
  | currentTab
  | singletonTab
  | newForegroundTab
  | newBackgroundTab
  | newPopup
  | newWindow
  | saveToDisk
  | offTheRecord
  | ignoreAction
  deriving DecidableEq, Repr

/-- A `content::WebContents*` value, identified abstractly. -/
abbrev WebContents := Nat

/-- The fields of `content::OpenURLParams` that
`ExtensionViewHost::OpenURLFromTab` and the delegated browser read. -/
structure OpenURLParams where
  url : Nat
  disposition : WindowOpenDisposition
  deriving DecidableEq, Repr

/-- Keyboard event types (`WebKit::WebInputEvent::Type`), restricted to the
keyboard kinds. -/
inductive WebInputEventType where
  | rawKeyDown
  | keyDown
  | keyUp
  | char
  deriving DecidableEq, Repr

/-- The fields of `content::NativeWebKeyboardEvent` the host reads. -/
structure NativeWebKeyboardEvent where
  type : WebInputEventType
  windowsKeyCode : Nat
  deriving DecidableEq, Repr

/-- `ui::VKEY_ESCAPE` (0x1B). -/
def VKEY_ESCAPE : Nat := 27

/-- The pair communicated by `PreHandleKeyboardEvent`: the returned `bool`
(whether the event was consumed) and the value written through the
`is_keyboard_shortcut` out-parameter. -/
structure PreHandleResult where
  consumed : Bool
  isKeyboardShortcut : Bool
  deriving DecidableEq, Repr

/-- The parent `Browser*`, modelled by the responses it gives to the two
delegated calls `OpenURL` and `PreHandleKeyboardEvent`.
`preHandleKeyboardEvent source event` yields the returned `bool` paired
with the value the browser writes through `is_keyboard_shortcut`. -/
structure Browser where
  openURL : OpenURLParams → Option WebContents
  preHandleKeyboardEvent :
    WebContents → NativeWebKeyboardEvent → PreHandleResult

/-- The platform view (`ExtensionViewViews` / `ExtensionViewMac` /
`ExtensionViewGtk`); the host reads its `browser()` accessor, which may be
null. -/
structure ExtensionView where
  browser : Option Browser

/-- `ExtensionViewHost::OpenURLFromTab`: a switch over
`params.disposition`; the seven whitelisted dispositions delegate to
`view_->browser()->OpenURL(params)` when a browser is bound and yield null
otherwise; every other disposition yields null. -/
def OpenURLFromTab (view : ExtensionView) (params : OpenURLParams) :
    Option WebContents :=
  match params.disposition with
  | .singletonTab | .newForegroundTab | .newBackgroundTab | .newPopup
  | .newWindow | .saveToDisk | .offTheRecord =>
    match view.browser with
    | some browser => browser.openURL params
    | none => none
  | _ => none

/-- The allow-list tested by the switch in `OpenURLFromTab`. -/
def dispositionWhitelisted : WindowOpenDisposition → Bool
  | .singletonTab | .newForegroundTab | .newBackgroundTab | .newPopup
  | .newWindow | .saveToDisk | .offTheRecord => true
  | _ => false

/-- `ExtensionViewHost::PreHandleKeyboardEvent`: for a popup host receiving
a raw key-down of `VKEY_ESCAPE`, writes `*is_keyboard_shortcut = true` and
returns `false`; otherwise delegates to `view_->browser()` when bound;
otherwise writes `false` and returns `false`. -/
def PreHandleKeyboardEvent (hostType : ViewType) (view : ExtensionView)
    (source : WebContents) (event : NativeWebKeyboardEvent) :
    PreHandleResult :=
  if hostType = ViewType.popup ∧ event.type = WebInputEventType.rawKeyDown ∧
      event.windowsKeyCode = VKEY_ESCAPE then
    ⟨false, true⟩
  else
    match view.browser with
    | some browser => browser.preHandleKeyboardEvent source event
    | none => ⟨false, false⟩

/-- Observable outcome of `ExtensionViewHost::HandleKeyboardEvent`: either
the host called `Close()` and returned, or the event fell through to
`UnhandledKeyboardEvent`. -/
inductive HandleOutcome where
  | closed
  | unhandled
  deriving DecidableEq, Repr

/-- `ExtensionViewHost::HandleKeyboardEvent`: a popup host closes on a raw
key-down of `VKEY_ESCAPE` and returns; every other event reaches
`UnhandledKeyboardEvent`. -/
def HandleKeyboardEvent (hostType : ViewType)
    (event : NativeWebKeyboardEvent) : HandleOutcome :=
  if hostType = ViewType.popup then
    if event.type = WebInputEventType.rawKeyDown ∧
        event.windowsKeyCode = VKEY_ESCAPE then
      HandleOutcome.closed
    else
      HandleOutcome.unhandled
  else
    HandleOutcome.unhandled

/-- `ExtensionViewHost::AssociatedWebContentsObserver`: a
`WebContentsObserver` bound to one `WebContents`, whose
`WebContentsDestroyed` callback calls `SetAssociatedWebContents(NULL)` on
the host. -/
structure AssociatedWebContentsObserver where
  observed : WebContents
  deriving DecidableEq, Repr

/-- The mutable state `SetAssociatedWebContents` manipulates: the weak
`associated_web_contents_` pointer and the owned observer. -/
structure AssociatedState where
  associated_web_contents : Option WebContents
  associated_web_contents_observer : Option AssociatedWebContentsObserver
  deriving DecidableEq, Repr

/-- `ExtensionViewHost::SetAssociatedWebContents`: stores the pointer;
when non-null, resets the observer to a fresh one bound to the new
contents; when null, resets the observer to empty. -/
def SetAssociatedWebContents (h : AssociatedState)
    (web_contents : Option WebContents) : AssociatedState :=
  match web_contents with
  | some w =>
    { associated_web_contents := some w
      associated_web_contents_observer := some ⟨w⟩ }
  | none =>
    { associated_web_contents := none
      associated_web_contents_observer := none }

/-- `ExtensionViewHost::GetAssociatedWebContents`. -/
def GetAssociatedWebContents (h : AssociatedState) : Option WebContents :=
  h.associated_web_contents

/-- Destruction of a `WebContents` `w` as observed by the host: if the
host's observer is currently bound to `w`, its `WebContentsDestroyed`
callback runs and calls `SetAssociatedWebContents(NULL)`; otherwise the
host is untouched. -/
def WebContentsDestroyed (h : AssociatedState) (w : WebContents) :
    AssociatedState :=
  match h.associated_web_contents_observer with
  | some obs =>
    if obs.observed = w then SetAssociatedWebContents h none else h
  | none => h

/-- `ExtensionViewHost::GetVisibleWebContents`: the associated contents
when set; else `host_contents()` for a popup host; else null. -/
def GetVisibleWebContents (hostType : ViewType)
    (associated_web_contents : Option WebContents)
    (host_contents : WebContents) : Option WebContents :=
  match associated_web_contents with
  | some w => some w
  | none =>
    if hostType = ViewType.popup then some host_contents else none

/-- The resource id `IDR_EXTENSIONS_INFOBAR_CSS` of the fixed stylesheet. -/
def IDR_EXTENSIONS_INFOBAR_CSS : Nat := 1

/-- `ExtensionViewHost::InsertInfobarCSS`, as the list of stylesheet
resources it injects into the page: exactly one, the fixed infobar
stylesheet. -/
def InsertInfobarCSS : List Nat := [IDR_EXTENSIONS_INFOBAR_CSS]

/-- `ExtensionViewHost::OnDocumentAvailable`, as the list of stylesheet
resources injected during the call: `InsertInfobarCSS` for an infobar
host, nothing otherwise. -/
def OnDocumentAvailable (hostType : ViewType) : List Nat :=
  if hostType = ViewType.infobar then InsertInfobarCSS else []

/-- `ExtensionViewHost::IsBackgroundPage`: `DCHECK(view_)` then
`return false`. The `DCHECK` is modelled by returning `none` when the view
is absent and `some` of the answer when it is present. -/
def IsBackgroundPage (view_ : Option ExtensionView) : Option Bool :=
  match view_ with
  | some _ => some false
  | none => none

/-- A concrete browser used to instantiate theorems on closed inputs. -/
def testBrowser : Browser :=
  { openURL := fun p => some (p.url + 100)
    preHandleKeyboardEvent := fun _ _ => ⟨true, false⟩ }

/-- C1: a navigation whose disposition is outside the allow-list yields
null from `OpenURLFromTab`, whatever browser (if any) the view is bound
to. -/
theorem openURLFromTab_disallowed_none (view : ExtensionView)
    (params : OpenURLParams)
    (h : dispositionWhitelisted params.disposition = false) :
    OpenURLFromTab view params = none := by
  rcases params with ⟨u, d⟩
  cases d <;> simp_all [OpenURLFromTab, dispositionWhitelisted]

/-- Witness for C1 at `CURRENT_TAB` with a browser bound. -/
theorem openURLFromTab_disallowed_none_witness :
    OpenURLFromTab ⟨some testBrowser⟩ ⟨5, WindowOpenDisposition.currentTab⟩
      = none :=
  openURLFromTab_disallowed_none ⟨some testBrowser⟩
    ⟨5, WindowOpenDisposition.currentTab⟩ (by decide)

/-- C2: an allow-listed navigation yields null when no parent browser is
bound, and yields exactly the browser's `OpenURL` result when one is. -/
theorem openURLFromTab_whitelisted (params : OpenURLParams)
    (h : dispositionWhitelisted params.disposition = true) :
    OpenURLFromTab ⟨none⟩ params = none ∧
    ∀ browser : Browser,
      OpenURLFromTab ⟨some browser⟩ params = browser.openURL params := by
  rcases params with ⟨u, d⟩
  cases d <;>
    first
    | exact ⟨rfl, fun _ => rfl⟩
    | simp [dispositionWhitelisted] at h

/-- Witness for C2 at `NEW_FOREGROUND_TAB`. -/
theorem openURLFromTab_whitelisted_witness :
    OpenURLFromTab ⟨none⟩ ⟨5, WindowOpenDisposition.newForegroundTab⟩ = none ∧
    OpenURLFromTab ⟨some testBrowser⟩
        ⟨5, WindowOpenDisposition.newForegroundTab⟩
      = testBrowser.openURL ⟨5, WindowOpenDisposition.newForegroundTab⟩ :=
  ⟨(openURLFromTab_whitelisted ⟨5, WindowOpenDisposition.newForegroundTab⟩
      rfl).1,
   (openURLFromTab_whitelisted ⟨5, WindowOpenDisposition.newForegroundTab⟩
      rfl).2 testBrowser⟩

/-- C3: `PreHandleKeyboardEvent` is a three-way dispatch. A popup host
receiving an Escape raw key-down answers `(consumed = false,
is-shortcut = true)` whatever the view's browser is; otherwise a bound
browser's pre-handler result is returned verbatim; otherwise the answer is
`(consumed = false, is-shortcut = false)`. -/
theorem preHandleKeyboardEvent_dispatch (hostType : ViewType)
    (view : ExtensionView) (source : WebContents)
    (event : NativeWebKeyboardEvent) :
    (hostType = ViewType.popup ∧
        event.type = WebInputEventType.rawKeyDown ∧
        event.windowsKeyCode = VKEY_ESCAPE →
      PreHandleKeyboardEvent hostType view source event = ⟨false, true⟩) ∧
    (¬ (hostType = ViewType.popup ∧
        event.type = WebInputEventType.rawKeyDown ∧
        event.windowsKeyCode = VKEY_ESCAPE) →
      (∀ browser, view.browser = some browser →
        PreHandleKeyboardEvent hostType view source event =
          browser.preHandleKeyboardEvent source event) ∧
      (view.browser = none →
        PreHandleKeyboardEvent hostType view source event
          = ⟨false, false⟩)) := by
  refine ⟨fun hc => ?_, fun hc => ⟨fun browser hb => ?_, fun hb => ?_⟩⟩
  · simp [PreHandleKeyboardEvent, hc]
  · simp [PreHandleKeyboardEvent, hc, hb]
  · simp [PreHandleKeyboardEvent, hc, hb]

/-- Witness for C3: all three branches at concrete inputs. -/
theorem preHandleKeyboardEvent_dispatch_witness :
    PreHandleKeyboardEvent ViewType.popup ⟨some testBrowser⟩ 3
        ⟨WebInputEventType.rawKeyDown, 27⟩ = ⟨false, true⟩ ∧
    PreHandleKeyboardEvent ViewType.dialog ⟨some testBrowser⟩ 3
        ⟨WebInputEventType.rawKeyDown, 27⟩
      = testBrowser.preHandleKeyboardEvent 3
          ⟨WebInputEventType.rawKeyDown, 27⟩ ∧
    PreHandleKeyboardEvent ViewType.dialog ⟨none⟩ 3
        ⟨WebInputEventType.rawKeyDown, 27⟩ = ⟨false, false⟩ :=
  ⟨(preHandleKeyboardEvent_dispatch ViewType.popup ⟨some testBrowser⟩ 3
      ⟨WebInputEventType.rawKeyDown, 27⟩).1 (by decide),
   ((preHandleKeyboardEvent_dispatch ViewType.dialog ⟨some testBrowser⟩ 3
      ⟨WebInputEventType.rawKeyDown, 27⟩).2 (by decide)).1 testBrowser rfl,
   ((preHandleKeyboardEvent_dispatch ViewType.dialog ⟨none⟩ 3
      ⟨WebInputEventType.rawKeyDown, 27⟩).2 (by decide)).2 rfl⟩

/-- C4: a popup host closes on an Escape raw key-down without reaching
`UnhandledKeyboardEvent`; any other event or host kind falls through to
`UnhandledKeyboardEvent`. -/
theorem handleKeyboardEvent_popup_escape (hostType : ViewType)
    (event : NativeWebKeyboardEvent) :
    (hostType = ViewType.popup ∧
        event.type = WebInputEventType.rawKeyDown ∧
        event.windowsKeyCode = VKEY_ESCAPE →
      HandleKeyboardEvent hostType event = HandleOutcome.closed) ∧
    (¬ (hostType = ViewType.popup ∧
        event.type = WebInputEventType.rawKeyDown ∧
        event.windowsKeyCode = VKEY_ESCAPE) →
      HandleKeyboardEvent hostType event = HandleOutcome.unhandled) := by
  cases hostType <;>
    rcases event with ⟨t, c⟩ <;>
    cases t <;>
    constructor <;>
    intro hc <;>
    simp_all [HandleKeyboardEvent]

/-- Witness for C4: Escape raw key-down closes a popup host, and the same
event on a dialog host falls through. -/
theorem handleKeyboardEvent_popup_escape_witness :
    HandleKeyboardEvent ViewType.popup ⟨WebInputEventType.rawKeyDown, 27⟩
      = HandleOutcome.closed ∧
    HandleKeyboardEvent ViewType.dialog ⟨WebInputEventType.rawKeyDown, 27⟩
      = HandleOutcome.unhandled :=
  ⟨(handleKeyboardEvent_popup_escape ViewType.popup
      ⟨WebInputEventType.rawKeyDown, 27⟩).1 (by decide),
   (handleKeyboardEvent_popup_escape ViewType.dialog
      ⟨WebInputEventType.rawKeyDown, 27⟩).2 (by decide)⟩

/-- C5: destroying the currently associated contents clears the weak
reference, so `GetAssociatedWebContents` answers none afterwards; and once
the reference has been set back to none, destroying the previously
associated contents leaves the host state unchanged. -/
theorem associated_weak_reference (h : AssociatedState) (x : WebContents) :
    GetAssociatedWebContents
        (WebContentsDestroyed (SetAssociatedWebContents h (some x)) x)
      = none ∧
    WebContentsDestroyed
        (SetAssociatedWebContents (SetAssociatedWebContents h (some x)) none)
        x
      = SetAssociatedWebContents (SetAssociatedWebContents h (some x))
          none := by
  simp [SetAssociatedWebContents, WebContentsDestroyed,
    GetAssociatedWebContents]

/-- C6: `GetVisibleWebContents` answers the associated contents whenever
one is set; with none set it answers the host's own contents exactly for a
popup host, and none for dialog and infobar hosts. -/
theorem getVisibleWebContents_cases (hostType : ViewType)
    (associated : Option WebContents) (hc : WebContents) :
    (∀ w, associated = some w →
      GetVisibleWebContents hostType associated hc = some w) ∧
    (associated = none →
      (GetVisibleWebContents hostType associated hc = some hc ↔
        hostType = ViewType.popup) ∧
      (hostType = ViewType.dialog ∨ hostType = ViewType.infobar →
        GetVisibleWebContents hostType associated hc = none)) := by
  cases associated <;> cases hostType <;>
    simp [GetVisibleWebContents]

/-- Witness for C6: associated contents win on any host kind; with none
associated, a popup shows its own contents and a dialog shows nothing. -/
theorem getVisibleWebContents_cases_witness :
    GetVisibleWebContents ViewType.dialog (some 4) 9 = some 4 ∧
    (GetVisibleWebContents ViewType.popup none 9 = some 9 ↔
      ViewType.popup = ViewType.popup) ∧
    GetVisibleWebContents ViewType.dialog none 9 = none :=
  ⟨(getVisibleWebContents_cases ViewType.dialog (some 4) 9).1 4 rfl,
   ((getVisibleWebContents_cases ViewType.popup none 9).2 rfl).1,
   ((getVisibleWebContents_cases ViewType.dialog none 9).2 rfl).2
     (Or.inl rfl)⟩

/-- C7: `OnDocumentAvailable` injects exactly the one fixed infobar
stylesheet when the host kind is infobar, and injects nothing for dialog
and popup hosts. -/
theorem onDocumentAvailable_infobar_css (hostType : ViewType) :
    (hostType = ViewType.infobar →
      OnDocumentAvailable hostType = [IDR_EXTENSIONS_INFOBAR_CSS]) ∧
    (hostType ≠ ViewType.infobar → OnDocumentAvailable hostType = []) := by
  cases hostType <;> simp [OnDocumentAvailable, InsertInfobarCSS]

/-- Witness for C7 at the infobar and popup kinds. -/
theorem onDocumentAvailable_infobar_css_witness :
    OnDocumentAvailable ViewType.infobar = [IDR_EXTENSIONS_INFOBAR_CSS] ∧
    OnDocumentAvailable ViewType.popup = [] :=
  ⟨(onDocumentAvailable_infobar_css ViewType.infobar).1 rfl,
   (onDocumentAvailable_infobar_css ViewType.popup).2 (by decide)⟩

/-- C8: whenever the platform view exists — the `DCHECK(view_)`
precondition — `IsBackgroundPage` answers false, for every view state. -/
theorem isBackgroundPage_false (view_ : Option ExtensionView)
    (h : view_.isSome = true) : IsBackgroundPage view_ = some false := by
  cases view_ with
  | some v => rfl
  | none => simp at h

/-- Witness for C8 on a host whose view exists (and has no browser). -/
theorem isBackgroundPage_false_witness :
    IsBackgroundPage (some ⟨none⟩) = some false :=
  isBackgroundPage_false (some ⟨none⟩) rfl

/-- C9: after any `SetAssociatedWebContents` call the observer exists
exactly when the associated reference is non-none, and it observes exactly
the referenced contents: setting fresh contents `w` over any prior state
leaves one observer, bound to `w`. -/
theorem setAssociatedWebContents_observer_invariant (h : AssociatedState)
    (wc : Option WebContents) :
    ((SetAssociatedWebContents h wc).associated_web_contents_observer.isSome
      ↔ (SetAssociatedWebContents h wc).associated_web_contents.isSome) ∧
    (∀ w, wc = some w →
      (SetAssociatedWebContents h wc).associated_web_contents_observer
          = some ⟨w⟩ ∧
      (SetAssociatedWebContents h wc).associated_web_contents = some w) := by
  cases wc <;> simp [SetAssociatedWebContents]

/-- Witness for C9: replacing an observed contents 1 with contents 2 leaves
exactly one observer, bound to 2. -/
theorem setAssociatedWebContents_observer_invariant_witness :
    (SetAssociatedWebContents ⟨some 1, some ⟨1⟩⟩
        (some 2)).associated_web_contents_observer = some ⟨2⟩ ∧
    (SetAssociatedWebContents ⟨some 1, some ⟨1⟩⟩
        (some 2)).associated_web_contents = some 2 :=
  (setAssociatedWebContents_observer_invariant ⟨some 1, some ⟨1⟩⟩
    (some 2)).2 2 rfl

/-- C10: on a popup host, an Escape event that is not a raw key-down does
not take the popup close-shortcut path: pre-handling falls to the
browser-delegation/default branches, and full handling falls through to
`UnhandledKeyboardEvent` instead of closing. -/
theorem popup_escape_non_rawKeyDown (view : ExtensionView)
    (source : WebContents) (event : NativeWebKeyboardEvent)
    (ht : event.type ≠ WebInputEventType.rawKeyDown)
    (hk : event.windowsKeyCode = VKEY_ESCAPE) :
    ((∀ browser, view.browser = some browser →
        PreHandleKeyboardEvent ViewType.popup view source event =
          browser.preHandleKeyboardEvent source event) ∧
      (view.browser = none →
        PreHandleKeyboardEvent ViewType.popup view source event
          = ⟨false, false⟩)) ∧
    HandleKeyboardEvent ViewType.popup event = HandleOutcome.unhandled := by
  refine ⟨⟨fun browser hb => ?_, fun hb => ?_⟩, ?_⟩
  · simp [PreHandleKeyboardEvent, ht, hb]
  · simp [PreHandleKeyboardEvent, ht, hb]
  · simp [HandleKeyboardEvent, ht]

/-- Witness for C10: a key-up Escape on a popup host delegates pre-handling
to the bound browser and does not close during full handling. -/
theorem popup_escape_non_rawKeyDown_witness :
    PreHandleKeyboardEvent ViewType.popup ⟨some testBrowser⟩ 3
        ⟨WebInputEventType.keyUp, 27⟩
      = testBrowser.preHandleKeyboardEvent 3 ⟨WebInputEventType.keyUp, 27⟩ ∧
    HandleKeyboardEvent ViewType.popup ⟨WebInputEventType.keyUp, 27⟩
      = HandleOutcome.unhandled :=
  ⟨(popup_escape_non_rawKeyDown ⟨some testBrowser⟩ 3
      ⟨WebInputEventType.keyUp, 27⟩ (by decide) rfl).1.1 testBrowser rfl,
   (popup_escape_non_rawKeyDown ⟨some testBrowser⟩ 3
      ⟨WebInputEventType.keyUp, 27⟩ (by decide) rfl).2⟩

end ExtensionViewHostModel
